import Mathlib

/-!
Shallow embedding of the Sourcetrail storage/application slice:
`src/lib/data/SqliteStorage.cpp`, `src/lib/Application.cpp`,
`src/lib/data/search/SearchMatch.cpp`, `src/lib/data/bookmark/Bookmark.cpp`.

C++ strings are modelled as `String` (where only equality matters) or as
`List Char` (where the code transforms characters), the SQLite tables as Lean
lists of row structures in table order, and the statements of each member
function are translated one by one. Rowid allocation is modelled by an explicit
counter carried next to the table. External collaborators not under `src/`
(the `Version` class, `TextAccess`, the FTS backend, the templated
`getFirst<T>`) are modelled from the spec, each marked in its doc comment.
-/

namespace SqliteStorage

/-- Row of the `source_location` table, restricted to the columns read by
`removeElementsWithLocationInFiles`: `id`, `element_id`, `file_node_id`. -/
structure StorageSourceLocation where
  id : Nat
  elementId : Nat
  fileNodeId : Nat
deriving DecidableEq, Repr

/-- The `element` and `source_location` tables: the state read and written by
the two DELETE statements of `removeElementsWithLocationInFiles`. -/
structure ElementDB where
  elements : List Nat
  sourceLocations : List StorageSourceLocation
deriving DecidableEq, Repr

/-- SqliteStorage::removeElementsWithLocationInFiles (SqliteStorage.cpp:232-258):
collect `(id, element_id)` of every source location lying in one of the given
files, delete those source locations by id, then delete every collected element
that no remaining source location references. -/
def removeElementsWithLocationInFiles (db : ElementDB) (fileIds : List Nat) : ElementDB :=
  let collected := db.sourceLocations.filter (fun l => decide (l.fileNodeId ∈ fileIds))
  let sourceLocationIds := collected.map (fun l => l.id)
  let elementIds := collected.map (fun l => l.elementId)
  let remainingLocations :=
    db.sourceLocations.filter
      (fun (l : StorageSourceLocation) => decide (l.id ∉ sourceLocationIds))
  let remainingElements := db.elements.filter (fun (e : Nat) =>
    !(decide (e ∈ elementIds) && !(remainingLocations.any (fun l => l.elementId == e))))
  ⟨remainingElements, remainingLocations⟩

/-- Modelled from the spec: the `Version` class is not under src/; it carries the
integer storage-version tag, `none` standing for the empty `Version()`. -/
abbrev Version := Option Nat

/-- Decimal digit value of a character, used to parse a stored version string. -/
def digitValue (c : Char) : Option Nat :=
  if c.isDigit then some (c.toNat - 48) else none

def parseNatAux : List Char → Nat → Option Nat
  | [], acc => some acc
  | c :: cs, acc =>
    match digitValue c with
    | some d => parseNatAux cs (acc * 10 + d)
    | none => none

def parseNat : List Char → Option Nat
  | [] => none
  | c :: cs => parseNatAux (c :: cs) 0

/-- Modelled from the spec: `Version::fromString` keeps the integer storage tag;
a non-numeric or empty string yields the empty version. -/
def versionFromString (s : String) : Version := parseNat s.toList

/-- Modelled from the spec: `Version::toString` prints the storage tag. -/
def versionToString (v : Version) : String :=
  match v with
  | some n => toString n
  | none => ""

/-- Modelled from the spec: `Version::isDifferentStorageVersionThan` — the
storage tags differ. -/
def isDifferentStorageVersionThan (v other : Version) : Bool := decide (v ≠ other)

/-- Row of the `node` table: `(id, type, serialized_name, definition_type)`. -/
structure StorageNode where
  id : Nat
  type : Int
  serializedName : String
  definitionType : Int
deriving DecidableEq, Repr

/-- The `meta` and `node` tables as they exist in the database file; `none`
models an absent (dropped) table, which is what `hasTable` inspects. The other
tables play no role in the claims about `init`. -/
structure SqliteDB where
  metaTable : Option (List (String × String))
  nodeTable : Option (List StorageNode)
deriving DecidableEq, Repr

/-- SqliteStorage::getMetaValue (SqliteStorage.cpp:794-807): empty string when
the `meta` table is absent or the key has no row; otherwise the first value
stored under the key. -/
def getMetaValue (db : SqliteDB) (key : String) : String :=
  match db.metaTable with
  | some rows => (rows.lookup key).getD ""
  | none => ""

/-- SqliteStorage::getVersion (SqliteStorage.cpp:75-85). -/
def getVersion (db : SqliteDB) : Version :=
  let versionStr := getMetaValue db "version"
  if versionStr.length > 0 then versionFromString versionStr else none

/-- SqliteStorage::insertOrUpdateMetaValue (SqliteStorage.cpp:809-815): an
upsert keyed on `key` (INSERT OR REPLACE; row order is immaterial). -/
def insertOrUpdateMetaValue (db : SqliteDB) (key value : String) : SqliteDB :=
  { db with
    metaTable :=
      some (((db.metaTable.getD []).filter (fun kv => kv.1 != key)) ++ [(key, value)]) }

/-- SqliteStorage::setVersion (SqliteStorage.cpp:87-90). Note that `init` never
calls this function. -/
def setVersion (db : SqliteDB) (version : Version) : SqliteDB :=
  insertOrUpdateMetaValue db "version" (versionToString version)

/-- SqliteStorage::setupTables (SqliteStorage.cpp:653-778): CREATE TABLE IF NOT
EXISTS for every table — an absent table becomes empty, an existing one keeps
its rows. -/
def setupTables (db : SqliteDB) : SqliteDB :=
  ⟨some (db.metaTable.getD []), some (db.nodeTable.getD [])⟩

/-- SqliteStorage::setup (SqliteStorage.cpp:41-45); the foreign-key pragma has
no counterpart in the relational model. -/
def setup (db : SqliteDB) : SqliteDB := setupTables db

/-- SqliteStorage::clearTables (SqliteStorage.cpp:639-651): DROP TABLE on every
table. -/
def clearTables (_db : SqliteDB) : SqliteDB := ⟨none, none⟩

/-- SqliteStorage::clear (SqliteStorage.cpp:47-53): drop everything, then set
up fresh tables. -/
def clear (db : SqliteDB) : SqliteDB := setup (clearTables db)

/-- SqliteStorage::init (SqliteStorage.cpp:27-39): read the stored version; set
up the tables when it is empty; clear (drop and recreate) when it differs from
the compiled application version; otherwise leave the database alone. The
version is not written back here. -/
def init (applicationVersion : Version) (db : SqliteDB) : SqliteDB :=
  let version := getVersion db
  if version.isNone then setup db
  else if isDifferentStorageVersionThan version applicationVersion then clear db
  else db

/-- SqliteStorage::getNodeCount (SqliteStorage.cpp:614-617). -/
def getNodeCount (db : SqliteDB) : Nat := (db.nodeTable.getD []).length

/-- The `node` table together with the `element` rowid counter (the source of
`lastRowId`): the state touched by `addNode` and the node getters. -/
structure NodeDB where
  nodes : List StorageNode
  nextElementId : Nat
deriving DecidableEq, Repr

/-- SqliteStorage::addNode (SqliteStorage.cpp:108-121): insert a fresh `element`
row — its rowid is the new id — then the `node` row, and return the id. -/
def addNode (db : NodeDB) (type : Int) (serializedName : String) (definitionType : Int) :
    Nat × NodeDB :=
  let id := db.nextElementId
  (id, ⟨db.nodes ++ [⟨id, type, serializedName, definitionType⟩], id + 1⟩)

/-- Specialization getAll<StorageNode> (SqliteStorage.cpp:868-891): the rows
matching the WHERE predicate, skipping sentinel rows (`id == 0` or
`type == -1`). -/
def getAllStorageNodes (db : NodeDB) (pred : StorageNode → Bool) : List StorageNode :=
  (db.nodes.filter pred).filter (fun n => !(n.id == 0) && !(n.type == (-1 : Int)))

/-- Modelled from the spec: the templated getFirst<T> lives in the header, not
under src/ — the first row of getAll, or a default row (`id = 0`) when there is
none. -/
def getFirstStorageNode (db : NodeDB) (pred : StorageNode → Bool) : StorageNode :=
  (getAllStorageNodes db pred).headD ⟨0, 0, "", 0⟩

/-- SqliteStorage::getNodeBySerializedName (SqliteStorage.cpp:439-442). -/
def getNodeBySerializedName (db : NodeDB) (serializedName : String) : StorageNode :=
  getFirstStorageNode db (fun n => n.serializedName == serializedName)

/-- Row of the `error` table. -/
structure ErrorRow where
  id : Nat
  message : List Char
  fatal : Bool
  filePath : List Char
  lineNumber : Nat
  columnNumber : Nat
deriving DecidableEq, Repr

/-- The `error` table together with its rowid counter. -/
structure ErrorDB where
  errors : List ErrorRow
  nextId : Nat
deriving DecidableEq, Repr

/-- Single-quote character, written by code point for the scanner's sake. -/
def singleQuoteChar : Char := Char.ofNat 39

/-- The call utility::replace(s, single quote, two single quotes) performed by
addError (SqliteStorage.cpp:192): double every single quote. -/
def replaceSingleQuotes : List Char → List Char
  | [] => []
  | c :: cs =>
    if c = singleQuoteChar then c :: c :: replaceSingleQuotes cs
    else c :: replaceSingleQuotes cs

/-- The tag addError prepends to the message (SqliteStorage.cpp:192). -/
def errorMessageTag (fatal : Bool) : List Char :=
  if fatal then "Fatal: ".toList else "Error: ".toList

/-- The escaped SQL text built by addError (SqliteStorage.cpp:192): tag the
caller's message, then double its single quotes. This is the text spliced into
the single-quoted SQL literal of the probe and the INSERT — not the column
value, since SQLite parses the doubled quotes back. -/
def sanitizedMessage (fatal : Bool) (message : List Char) : List Char :=
  replaceSingleQuotes (errorMessageTag fatal ++ message)

/-- SQL string-literal parsing: inside a single-quoted literal, a doubled
single quote denotes one single quote. -/
def sqlUnescapeQuotes : List Char → List Char
  | [] => []
  | [c] => [c]
  | c :: c2 :: cs =>
    if c = singleQuoteChar ∧ c2 = singleQuoteChar then c :: sqlUnescapeQuotes cs
    else c :: sqlUnescapeQuotes (c2 :: cs)

/-- The message column value addError actually probes for and stores: the value
denoted by the SQL literal holding the escaped text — the tagged message with
its single quotes intact. -/
def storedErrorMessage (fatal : Bool) (message : List Char) : List Char :=
  sqlUnescapeQuotes (sanitizedMessage fatal message)

/-- WHERE clause of the duplicate probe in addError (SqliteStorage.cpp:195-202),
as a row predicate over column values; the message compared against is the one
the escaped literal denotes. -/
def errorMatches (message : List Char) (fatal : Bool) (filePath : List Char)
    (lineNumber columnNumber : Nat) (r : ErrorRow) : Bool :=
  r.message == message && r.fatal == fatal && r.filePath == filePath &&
    r.lineNumber == lineNumber && r.columnNumber == columnNumber

/-- SqliteStorage::addError (SqliteStorage.cpp:190-216): build the escaped
message text, probe for an identical row (returning its id when found),
otherwise insert and return the fresh rowid. Probe and INSERT splice the same
escaped text into their SQL, so both operate on the column value that literal
denotes. -/
def addError (db : ErrorDB) (message : List Char) (fatal : Bool) (filePath : List Char)
    (lineNumber columnNumber : Nat) : Nat × ErrorDB :=
  let s := storedErrorMessage fatal message
  match db.errors.find? (errorMatches s fatal filePath lineNumber columnNumber) with
  | some row => (row.id, db)
  | none =>
    (db.nextId,
     ⟨db.errors ++ [⟨db.nextId, s, fatal, filePath, lineNumber, columnNumber⟩],
      db.nextId + 1⟩)

/-- Record returned by getAll<StorageError>: no id column is selected. -/
structure StorageError where
  message : List Char
  fatal : Bool
  filePath : List Char
  lineNumber : Nat
  columnNumber : Nat
deriving DecidableEq, Repr

/-- Specialization getAll<StorageError> with an empty query
(SqliteStorage.cpp:1002-1027, SqliteStorage.cpp:609-612); the `line != -1` and
`column != -1` sentinel filters are vacuous over `Nat` columns. -/
def getAllErrors (db : ErrorDB) : List StorageError :=
  db.errors.map (fun r => ⟨r.message, r.fatal, r.filePath, r.lineNumber, r.columnNumber⟩)

/-- Newline character, written by code point for the scanner's sake. -/
def newlineChar : Char := Char.ofNat 10

/-- Modelled from the spec: TextAccess (not under src/) splits the stored file
content into line-addressable lines; each line keeps its terminating newline, so
byte offsets advance by the full line length. The accumulator holds the current
line reversed. -/
def splitLinesAux : List Char → List Char → List (List Char)
  | [], acc => if acc.isEmpty then [] else [acc.reverse]
  | c :: cs, acc =>
    if c = newlineChar then (c :: acc).reverse :: splitLinesAux cs []
    else splitLinesAux cs (c :: acc)

/-- Lines of a file content, 1-based access via list position. -/
def textLines (content : List Char) : List (List Char) := splitLinesAux content []

/-- Whether `term` occurs at the head of `text`. -/
def matchesAt : List Char → List Char → Bool
  | [], _ => true
  | _ :: _, [] => false
  | a :: as, b :: bs => a == b && matchesAt as bs

/-- Byte offsets (ascending) at which `term` occurs inside the text. -/
def occurrencesFrom (term : List Char) : List Char → Nat → List Nat
  | [], _ => []
  | c :: cs, pos =>
    (if matchesAt term (c :: cs) then [pos] else []) ++ occurrencesFrom term cs (pos + 1)

/-- One group of four integers of the offsets() stream:
`(column_id, term_index, byte_offset, length)`. -/
structure FtsOffsetGroup where
  columnId : Nat
  termIndex : Nat
  byteOffset : Nat
  byteLength : Nat
deriving DecidableEq, Repr

/-- Modelled from the spec: the offsets() stream of the FTS MATCH query (the FTS
backend is not under src/) — one group per occurrence of the search term in the
file content, in ascending byte-offset order, single column, single query term. -/
def ftsOffsets (content term : List Char) : List FtsOffsetGroup :=
  (occurrencesFrom term content 0).map (fun b => ⟨0, 0, b, term.length⟩)

/-- ParseLocation as filled in by getFullTextSearch: 1-based start/end line and
column of a match (the file path field is dropped — a single file is modelled). -/
structure ParseLocation where
  startLineNumber : Nat
  startColumnNumber : Nat
  endLineNumber : Nat
  endColumnNumber : Nat
deriving DecidableEq, Repr

/-- One advance-lines loop of getFullTextSearch (SqliteStorage.cpp:388-393 and
403-408): advance while the current line still ends before the target byte
offset. The state is (remaining lines, line number, chars in previous lines);
past-the-end lines are empty, so the walk stops at the end of the file. -/
def advanceLines : List (List Char) → Nat → Nat → Nat → List (List Char) × Nat × Nat
  | [], lineNumber, charsInPreviousLines, _ => ([], lineNumber, charsInPreviousLines)
  | line :: rest, lineNumber, charsInPreviousLines, target =>
    if charsInPreviousLines + line.length < target then
      advanceLines rest (lineNumber + 1) (charsInPreviousLines + line.length) target
    else (line :: rest, lineNumber, charsInPreviousLines)

/-- Group loop of SqliteStorage::getFullTextSearch (SqliteStorage.cpp:386-418):
advance to the group's start offset only when it is the first term of a match
(recording start line/column), always advance to its end offset (recording end
line/column), and emit the location when the next group starts a new match or
the stream ends. -/
def ftsWalk :
    List FtsOffsetGroup → List (List Char) → Nat → Nat → ParseLocation →
      List ParseLocation
  | [], _, _, _, _ => []
  | g :: rest, rem, lineNumber, charsInPreviousLines, location =>
    let s1 :=
      if g.termIndex == 0 then advanceLines rem lineNumber charsInPreviousLines g.byteOffset
      else (rem, lineNumber, charsInPreviousLines)
    let location1 :=
      if g.termIndex == 0 then
        { location with
          startLineNumber := s1.2.1
          startColumnNumber := g.byteOffset - s1.2.2 + 1 }
      else location
    let s2 := advanceLines s1.1 s1.2.1 s1.2.2 (g.byteOffset + g.byteLength)
    let location2 :=
      { location1 with
        endLineNumber := s2.2.1
        endColumnNumber := g.byteOffset + g.byteLength - s2.2.2 }
    let emit :=
      match rest with
      | [] => true
      | g2 :: _ => g2.termIndex == 0
    (if emit then [location2] else []) ++ ftsWalk rest s2.1 s2.2.1 s2.2.2 location2

/-- SqliteStorage::getFullTextSearch (SqliteStorage.cpp:356-428) for a single
stored file with the given content. -/
def getFullTextSearch (content term : List Char) : List ParseLocation :=
  ftsWalk (ftsOffsets content term) (textLines content) 1 0 ⟨0, 0, 0, 0⟩

end SqliteStorage

namespace SearchMatch

/-- Underlying values of the SearchType enum (first five values, default C++
numbering). -/
def SEARCH_NONE : Int := 0

def SEARCH_TOKEN : Int := 1

def SEARCH_COMMAND : Int := 2

def SEARCH_OPERATOR : Int := 3

def SEARCH_FULLTEXT : Int := 4

/-- SearchMatch::getSearchTypeName (SearchMatch.cpp:20-36), embedded over the
enum's underlying values; `none` models control falling off the end of the
switch without returning a value (the switch has no default case). -/
def getSearchTypeName (type : Int) : Option String :=
  if type = SEARCH_NONE then some "none"
  else if type = SEARCH_TOKEN then some "token"
  else if type = SEARCH_COMMAND then some "command"
  else if type = SEARCH_OPERATOR then some "operator"
  else if type = SEARCH_FULLTEXT then some "fulltext"
  else none

/-- Modelled from the spec: the required total variant returning an explicit
"unknown" for every unlisted variant. -/
def getSearchTypeNameTotal (type : Int) : String :=
  if type = SEARCH_NONE then "none"
  else if type = SEARCH_TOKEN then "token"
  else if type = SEARCH_COMMAND then "command"
  else if type = SEARCH_OPERATOR then "operator"
  else if type = SEARCH_FULLTEXT then "fulltext"
  else "unknown"

end SearchMatch

namespace Application

/-- MessageStatus payload: (text, is_error, is_transient). -/
structure MessageStatus where
  status : String
  isError : Bool
  isTransient : Bool
deriving DecidableEq, Repr

/-- Outcome of the try block of createAndLoadProject: the body either runs to
completion, throws a std::exception, or throws an unknown exception. -/
inductive LoadOutcome
  | success
  | stdException
  | unknownException
deriving DecidableEq, Repr

/-- Application::createAndLoadProject (Application.cpp:144-187), projected onto
the MessageStatus dispatches it performs. The function is total: both catch
clauses convert the exception into an error status, after which the call
returns normally (the project member keeps whatever state the load produced). -/
def createAndLoadProject (projectSettingsFilePath : String) (outcome : LoadOutcome) :
    List MessageStatus :=
  ⟨"Loading Project: " ++ projectSettingsFilePath, false, true⟩ ::
    match outcome with
    | .success => []
    | .stdException =>
      [⟨"Failed to load project, exception was thrown: " ++ projectSettingsFilePath,
        true, false⟩]
    | .unknownException =>
      [⟨"Failed to load project, unknown exception was thrown: " ++ projectSettingsFilePath,
        true, false⟩]

/-- While loop of Application::updateRecentProjects (Application.cpp:307-310):
pop from the back while more than 7 entries remain; the fuel is instantiated
with the list length, which bounds the number of pops. -/
def popBackWhileOverCap : Nat → List String → List String
  | 0, l => l
  | fuel + 1, l => if l.length ≤ 7 then l else popBackWhileOverCap fuel l.dropLast

/-- Application::updateRecentProjects (Application.cpp:291-317): erase the first
occurrence of the path if present, prepend the path, then pop from the back
down to 7 entries. -/
def updateRecentProjects (recentProjects : List String) (projectSettingsFilePath : String) :
    List String :=
  let erased := recentProjects.erase projectSettingsFilePath
  let prepended := projectSettingsFilePath :: erased
  popBackWhileOverCap prepended.length prepended

end Application

/-- Bookmark (Bookmark.cpp); TimePoint and BookmarkCategory are external types
that the constructor and getters treat opaquely, modelled as Nat and String. -/
structure Bookmark where
  m_id : Nat
  m_name : String
  m_comment : String
  m_timeStamp : Nat
  m_category : String
  m_isValid : Bool
deriving DecidableEq, Repr

/-- Bookmark::Bookmark (Bookmark.cpp:3-11): store every argument and initialize
m_isValid to false. -/
def mkBookmark (id : Nat) (name comment : String) (timeStamp : Nat) (category : String) :
    Bookmark :=
  ⟨id, name, comment, timeStamp, category, false⟩

/-- Bookmark::getId (Bookmark.cpp:17-20). -/
def Bookmark.getId (b : Bookmark) : Nat := b.m_id

/-- Bookmark::getName (Bookmark.cpp:27-30). -/
def Bookmark.getName (b : Bookmark) : String := b.m_name

/-- Bookmark::getComment (Bookmark.cpp:37-40). -/
def Bookmark.getComment (b : Bookmark) : String := b.m_comment

/-- Bookmark::getTimeStamp (Bookmark.cpp:47-50). -/
def Bookmark.getTimeStamp (b : Bookmark) : Nat := b.m_timeStamp

/-- Bookmark::getCategory (Bookmark.cpp:57-60). -/
def Bookmark.getCategory (b : Bookmark) : String := b.m_category

/-- Bookmark::isValid (Bookmark.cpp:67-70). -/
def Bookmark.isValid (b : Bookmark) : Bool := b.m_isValid

/-- Bookmark::setIsValid (Bookmark.cpp:72-75). -/
def Bookmark.setIsValid (b : Bookmark) (v : Bool) : Bookmark := { b with m_isValid := v }

/-! Theorems. Helper lemmas come first, then one theorem per claim, each with a
witness when it carries hypotheses. -/

/-- C10: a freshly constructed Bookmark returns each constructor argument from
the corresponding getter, yet isValid() is false regardless of the arguments,
and becomes true only through an explicit setIsValid(true). -/
theorem bookmark_construction (id : Nat) (name comment : String) (timeStamp : Nat)
    (category : String) :
    (mkBookmark id name comment timeStamp category).getId = id
    ∧ (mkBookmark id name comment timeStamp category).getName = name
    ∧ (mkBookmark id name comment timeStamp category).getComment = comment
    ∧ (mkBookmark id name comment timeStamp category).getTimeStamp = timeStamp
    ∧ (mkBookmark id name comment timeStamp category).getCategory = category
    ∧ (mkBookmark id name comment timeStamp category).isValid = false
    ∧ ((mkBookmark id name comment timeStamp category).setIsValid true).isValid = true :=
  ⟨rfl, rfl, rfl, rfl, rfl, rfl, rfl⟩

/-- C8: getSearchTypeName is not total as specified — at the out-of-range enum
value 5 the switch falls through without returning a value (modelled as `none`),
whereas the specified total variant returns "unknown" there. -/
theorem getSearchTypeName_fallsThrough :
    SearchMatch.getSearchTypeName 5 = none
    ∧ SearchMatch.getSearchTypeNameTotal 5 = "unknown" := by
  decide

/-- C7: every failing outcome of the try block of createAndLoadProject is
reported via a MessageStatus with isError = true, and the function (being total)
returns its status list normally, so the message loop continues. -/
theorem createAndLoadProject_reportsFailure (path : String)
    (outcome : Application.LoadOutcome) (h : outcome ≠ Application.LoadOutcome.success) :
    ∃ msg ∈ Application.createAndLoadProject path outcome, msg.isError = true := by
  cases outcome with
  | success => exact absurd rfl h
  | stdException =>
    exact ⟨⟨"Failed to load project, exception was thrown: " ++ path, true, false⟩,
      by simp [Application.createAndLoadProject], rfl⟩
  | unknownException =>
    exact ⟨⟨"Failed to load project, unknown exception was thrown: " ++ path, true, false⟩,
      by simp [Application.createAndLoadProject], rfl⟩

/-- Witness for C7 at a concrete path and the unknown-exception outcome. -/
theorem createAndLoadProject_reportsFailure_witness :
    ∃ msg ∈ Application.createAndLoadProject "p.prj" Application.LoadOutcome.unknownException,
      msg.isError = true :=
  createAndLoadProject_reportsFailure "p.prj" Application.LoadOutcome.unknownException
    (by decide)

/-- C4: full-text search for "foo" in a stored file containing "foo\nbarfoo\n"
(LF line endings) yields exactly the two 1-based locations (1,1)-(1,3) and
(2,4)-(2,6), via the offsets walk of getFullTextSearch. -/
theorem getFullTextSearch_fooBarfoo :
    SqliteStorage.getFullTextSearch ("foo\nbarfoo\n".toList) ("foo".toList) =
      [⟨1, 1, 1, 3⟩, ⟨2, 4, 2, 6⟩] := by
  decide

namespace SqliteStorage

/-- Database stored by an engine whose version tag was 7, holding one node. -/
def mismatchDB : SqliteDB := ⟨some [("version", "7")], some [⟨5, 1, "n", 0⟩]⟩

/-- C2 counterexample: opening a database stored with version 7 from an engine
compiled for version 8, init clears the node table but stores no version at all
(init never calls setVersion), so the stored version does not equal the
compiled version as the claim requires. -/
theorem init_versionWriteBack_counterexample :
    getNodeCount (init (some 8) mismatchDB) = 0
    ∧ getVersion (init (some 8) mismatchDB) ≠ some 8 := by
  decide

/-- C2 (amended): when the stored version is present and differs from the
compiled version, init performs the full clear and recreate — afterwards the
node table is empty and the meta table holds no version entry at all (writing
the version back is a separate setVersion call that init does not make). -/
theorem init_versionMismatch_clears (applicationVersion : Version) (db : SqliteDB)
    (n : Nat) (hstored : getVersion db = some n) (hdiff : some n ≠ applicationVersion) :
    getNodeCount (init applicationVersion db) = 0
    ∧ getVersion (init applicationVersion db) = none := by
  simp only [init, hstored, Option.isNone_some, Bool.false_eq_true, if_false,
    isDifferentStorageVersionThan]
  simp [hdiff, clear, setup, setupTables, clearTables, getNodeCount, getVersion,
    getMetaValue]

/-- Witness for C2 at the concrete mismatching database and compiled version 8. -/
theorem init_versionMismatch_clears_witness :
    getNodeCount (init (some 8) mismatchDB) = 0
    ∧ getVersion (init (some 8) mismatchDB) = none :=
  init_versionMismatch_clears (some 8) mismatchDB 7 (by decide) (by decide)

/-- C5 counterexample: after addNode(1, "a", 0) and addNode(2, "a", 1), the
second call returned id 2 but getNodeBySerializedName("a") returns the first
stored row — id 1, type 1, definition type 0 — not the record just inserted. -/
theorem addNode_roundtrip_counterexample :
    (addNode (addNode ⟨[], 1⟩ 1 "a" 0).2 2 "a" 1).1 = 2
    ∧ (getNodeBySerializedName (addNode (addNode ⟨[], 1⟩ 1 "a" 0).2 2 "a" 1).2 "a").id = 1
    ∧ (getNodeBySerializedName (addNode (addNode ⟨[], 1⟩ 1 "a" 0).2 2 "a" 1).2 "a").type
        = 1 := by
  decide

/-- C5 (amended): provided no stored node already carries the serialized name
and the type is not the sentinel -1 skipped by the typed reader (and the rowid
counter is positive, as it always is in a live database), addNode returns a
nonzero id and getNodeBySerializedName returns exactly the inserted record. -/
theorem addNode_roundtrip (db : NodeDB) (t : Int) (n : String) (d : Int)
    (hname : ∀ r ∈ db.nodes, r.serializedName ≠ n) (ht : t ≠ -1)
    (hid : db.nextElementId ≠ 0) :
    (addNode db t n d).1 ≠ 0
    ∧ getNodeBySerializedName (addNode db t n d).2 n = ⟨db.nextElementId, t, n, d⟩ := by
  refine ⟨hid, ?_⟩
  have hnil : db.nodes.filter (fun r => r.serializedName == n) = [] :=
    List.filter_eq_nil_iff.mpr (fun r hr => by simpa using hname r hr)
  have h1 : (db.nextElementId == 0) = false := beq_eq_false_iff_ne.mpr hid
  have h2 : (t == (-1 : Int)) = false := beq_eq_false_iff_ne.mpr ht
  simp only [getNodeBySerializedName, getFirstStorageNode, getAllStorageNodes, addNode,
    List.filter_append, hnil]
  simp [h1, h2]

/-- Witness for C5 on an empty node table. -/
theorem addNode_roundtrip_witness :
    (addNode ⟨[], 1⟩ 1 "x" 2).1 ≠ 0
    ∧ getNodeBySerializedName (addNode ⟨[], 1⟩ 1 "x" 2).2 "x" = ⟨1, 1, "x", 2⟩ :=
  addNode_roundtrip ⟨[], 1⟩ 1 "x" 2 (by simp) (by decide) (by decide)

end SqliteStorage

namespace SqliteStorage

/-- Characterization of the source locations surviving
removeElementsWithLocationInFiles: with primary-key-unique location ids, the
first DELETE removes exactly the rows lying in the given files. -/
theorem mem_removeSourceLocations (db : ElementDB) (fileIds : List Nat)
    (hids : (db.sourceLocations.map (fun l => l.id)).Nodup)
    (l : StorageSourceLocation) :
    l ∈ (removeElementsWithLocationInFiles db fileIds).sourceLocations ↔
      l ∈ db.sourceLocations ∧ l.fileNodeId ∉ fileIds := by
  simp only [removeElementsWithLocationInFiles, List.mem_filter, decide_eq_true_eq]
  constructor
  · rintro ⟨hl, hnot⟩
    refine ⟨hl, fun hin => hnot ?_⟩
    exact List.mem_map.mpr ⟨l, List.mem_filter.mpr ⟨hl, by simpa using hin⟩, rfl⟩
  · rintro ⟨hl, hfile⟩
    refine ⟨hl, fun hin => ?_⟩
    obtain ⟨l', hl', hid⟩ := List.mem_map.mp hin
    have hl'mem : l' ∈ db.sourceLocations := (List.mem_filter.mp hl').1
    have hl'file : l'.fileNodeId ∈ fileIds := by simpa using (List.mem_filter.mp hl').2
    exact hfile ((List.inj_on_of_nodup_map hids hl'mem hl hid) ▸ hl'file)

/-- Characterization of the elements surviving the second DELETE of
removeElementsWithLocationInFiles: an element survives unless it was collected
from the deleted locations and no remaining location references it. -/
theorem mem_removeElements (db : ElementDB) (fileIds : List Nat) (e : Nat) :
    e ∈ (removeElementsWithLocationInFiles db fileIds).elements ↔
      e ∈ db.elements ∧
        (e ∉ (db.sourceLocations.filter
            (fun l => decide (l.fileNodeId ∈ fileIds))).map (fun l => l.elementId)
          ∨ ∃ l ∈ (removeElementsWithLocationInFiles db fileIds).sourceLocations,
              l.elementId = e) := by
  simp only [removeElementsWithLocationInFiles, List.mem_filter, Bool.not_eq_true',
    Bool.and_eq_false_iff, decide_eq_false_iff_not, Bool.not_eq_false',
    List.any_eq_true, beq_iff_eq, decide_eq_true_eq]

/-- C1: after removeElementsWithLocationInFiles, every source-location row in
one of the given files is deleted, and an element that had a location in one of
those files survives iff at least one remaining source location (each of which
lies in a file outside the set) still references it. -/
theorem removeElementsWithLocationInFiles_orphanCheck
    (db : ElementDB) (fileIds : List Nat)
    (hids : (db.sourceLocations.map (fun l => l.id)).Nodup)
    (e : Nat) (he : e ∈ db.elements)
    (hloc : ∃ l ∈ db.sourceLocations, l.elementId = e ∧ l.fileNodeId ∈ fileIds) :
    ((e ∈ (removeElementsWithLocationInFiles db fileIds).elements) ↔
      ∃ l ∈ (removeElementsWithLocationInFiles db fileIds).sourceLocations,
        l.elementId = e)
    ∧ ∀ l ∈ (removeElementsWithLocationInFiles db fileIds).sourceLocations,
        l.fileNodeId ∉ fileIds := by
  refine ⟨?_, fun l hl => ((mem_removeSourceLocations db fileIds hids l).mp hl).2⟩
  obtain ⟨l0, hl0, hl0e, hl0f⟩ := hloc
  have hcol : e ∈ (db.sourceLocations.filter
      (fun l => decide (l.fileNodeId ∈ fileIds))).map (fun l => l.elementId) :=
    List.mem_map.mpr ⟨l0, List.mem_filter.mpr ⟨hl0, by simpa using hl0f⟩, hl0e⟩
  constructor
  · intro hmem
    rcases ((mem_removeElements db fileIds e).mp hmem).2 with h | h
    · exact absurd hcol h
    · exact h
  · intro href
    exact (mem_removeElements db fileIds e).mpr ⟨he, Or.inr href⟩

/-- Concrete database for the C1 witness: element 1 only has a location in file
10, element 2 has locations in files 10 and 11. -/
def orphanWitnessDB : ElementDB := ⟨[1, 2], [⟨1, 1, 10⟩, ⟨2, 2, 10⟩, ⟨3, 2, 11⟩]⟩

/-- Witness for C1: removing file 10 deletes element 1 and keeps element 2,
which is still referenced from file 11. -/
theorem removeElementsWithLocationInFiles_orphanCheck_witness :
    ((2 ∈ (removeElementsWithLocationInFiles orphanWitnessDB [10]).elements) ↔
      ∃ l ∈ (removeElementsWithLocationInFiles orphanWitnessDB [10]).sourceLocations,
        l.elementId = 2)
    ∧ ∀ l ∈ (removeElementsWithLocationInFiles orphanWitnessDB [10]).sourceLocations,
        l.fileNodeId ∉ [10] :=
  removeElementsWithLocationInFiles_orphanCheck orphanWitnessDB [10] (by decide) 2
    (by decide) (by decide)

/-- C3: calling addError twice with the same tuple returns the same id from
both calls and leaves exactly one matching row in the error table; the second
call finds the identical row by probing and returns its id without inserting.
The hypothesis is the uniqueness invariant addError itself maintains: the table
holds at most one row per key. -/
theorem addError_dedup (db : ErrorDB) (m : List Char) (fatal : Bool) (f : List Char)
    (l c : Nat)
    (hkey : db.errors.countP (errorMatches (storedErrorMessage fatal m) fatal f l c) ≤ 1) :
    (addError db m fatal f l c).1 = (addError (addError db m fatal f l c).2 m fatal f l c).1
    ∧ (addError (addError db m fatal f l c).2 m fatal f l c).2.errors.countP
        (errorMatches (storedErrorMessage fatal m) fatal f l c) = 1 := by
  cases hfind : db.errors.find? (errorMatches (storedErrorMessage fatal m) fatal f l c) with
  | some row =>
    have hrow := List.find?_some hfind
    have hmem := List.mem_of_find?_eq_some hfind
    have hpos : 0 < db.errors.countP (errorMatches (storedErrorMessage fatal m) fatal f l c) :=
      List.countP_pos_iff.mpr ⟨row, hmem, hrow⟩
    simp only [addError, hfind]
    exact ⟨trivial, Nat.le_antisymm hkey hpos⟩
  | none =>
    have hzero : db.errors.countP (errorMatches (storedErrorMessage fatal m) fatal f l c) = 0 :=
      List.countP_eq_zero.mpr (List.find?_eq_none.mp hfind)
    have hnew : errorMatches (storedErrorMessage fatal m) fatal f l c
        ⟨db.nextId, storedErrorMessage fatal m, fatal, f, l, c⟩ = true := by
      simp [errorMatches]
    simp only [addError, hfind]
    simp only [List.find?_append, hfind, Option.none_or, List.find?_cons, hnew, cond_true]
    refine ⟨trivial, ?_⟩
    simp [List.countP_append, hzero, List.countP_cons, hnew]

/-- Witness for C3: adding the same error twice to an empty table. -/
theorem addError_dedup_witness :
    (addError ⟨[], 1⟩ "X".toList false "a.c".toList 2 3).1 =
      (addError (addError ⟨[], 1⟩ "X".toList false "a.c".toList 2 3).2
        "X".toList false "a.c".toList 2 3).1
    ∧ (addError (addError ⟨[], 1⟩ "X".toList false "a.c".toList 2 3).2
        "X".toList false "a.c".toList 2 3).2.errors.countP
          (errorMatches (storedErrorMessage false "X".toList) false "a.c".toList 2 3) = 1 :=
  addError_dedup ⟨[], 1⟩ "X".toList false "a.c".toList 2 3 (by decide)

/-- The tag prepended to an error message has length 7. -/
theorem errorMessageTag_length (fatal : Bool) : (errorMessageTag fatal).length = 7 := by
  cases fatal <;> decide

/-- Literal parsing of a non-quote head character passes it through. -/
theorem sqlUnescapeQuotes_cons_of_ne (c : Char) (h : c ≠ singleQuoteChar)
    (cs : List Char) : sqlUnescapeQuotes (c :: cs) = c :: sqlUnescapeQuotes cs := by
  cases cs with
  | nil => rfl
  | cons c2 cs2 => simp [sqlUnescapeQuotes, h]

/-- Parsing the literal undoes the escaping: unescaping the quote-doubled text
recovers the original characters. -/
theorem sqlUnescapeQuotes_replaceSingleQuotes (cs : List Char) :
    sqlUnescapeQuotes (replaceSingleQuotes cs) = cs := by
  induction cs with
  | nil => rfl
  | cons c cs ih =>
    by_cases h : c = singleQuoteChar
    · simp [replaceSingleQuotes, h, sqlUnescapeQuotes, ih]
    · rw [replaceSingleQuotes, if_neg h, sqlUnescapeQuotes_cons_of_ne c h, ih]

/-- The stored message column value is the tagged message with quotes intact. -/
theorem storedErrorMessage_eq (fatal : Bool) (m : List Char) :
    storedErrorMessage fatal m = errorMessageTag fatal ++ m := by
  simp [storedErrorMessage, sanitizedMessage, sqlUnescapeQuotes_replaceSingleQuotes]

/-- C9 counterexample: for the message consisting of the character a followed by
a single quote, the row stored (and returned by getAllErrors) carries the tagged
message with its quote intact, which differs from the quote-doubled escape text
the claim says is stored. -/
theorem addError_quoteDoubling_counterexample :
    getAllErrors (addError ⟨[], 1⟩ ['a', singleQuoteChar] false "a.c".toList 2 3).2 =
      [⟨"Error: a".toList ++ [singleQuoteChar], false, "a.c".toList, 2, 3⟩]
    ∧ "Error: a".toList ++ [singleQuoteChar] ≠
        sanitizedMessage false ['a', singleQuoteChar] := by
  decide

/-- C9 (amended): the stored error message is never the caller's message
verbatim — it is the message tagged with "Fatal: "/"Error: ", with its single
quotes intact (the quote doubling is SQL string-literal escaping that parsing
undoes); getAllErrors returns this tagged message, and the duplicate probe keys
on it, so a pre-existing row holding the raw message is not matched and a
second row is inserted. -/
theorem addError_storesTaggedMessage (m : List Char) (fatal : Bool) (f : List Char)
    (l c : Nat) :
    storedErrorMessage fatal m = errorMessageTag fatal ++ m
    ∧ storedErrorMessage fatal m ≠ m
    ∧ getAllErrors (addError ⟨[], 1⟩ m fatal f l c).2 =
        [⟨storedErrorMessage fatal m, fatal, f, l, c⟩]
    ∧ (addError ⟨[⟨1, m, fatal, f, l, c⟩], 2⟩ m fatal f l c).2.errors.length = 2 := by
  have heq := storedErrorMessage_eq fatal m
  have hne : storedErrorMessage fatal m ≠ m := by
    intro h
    have hl : (storedErrorMessage fatal m).length = m.length := congrArg List.length h
    rw [heq, List.length_append, errorMessageTag_length] at hl
    omega
  refine ⟨heq, hne, rfl, ?_⟩
  have hfalse : errorMatches (storedErrorMessage fatal m) fatal f l c
      ⟨1, m, fatal, f, l, c⟩ = false := by
    simp only [errorMatches]
    have hbeq : (m == storedErrorMessage fatal m) = false :=
      beq_eq_false_iff_ne.mpr (fun h => hne h.symm)
    simp [hbeq]
  simp [addError, List.find?_cons, hfalse]

end SqliteStorage

namespace Application

/-- The pop-from-the-back loop only removes elements, hence yields a sublist. -/
theorem popBackWhileOverCap_sublist (fuel : Nat) (l : List String) :
    (popBackWhileOverCap fuel l).Sublist l := by
  induction fuel generalizing l with
  | zero => exact List.Sublist.refl l
  | succ fuel ih =>
    simp only [popBackWhileOverCap]
    by_cases h : l.length ≤ 7
    · simp [h]
    · simp only [h, if_false]
      exact (ih l.dropLast).trans (List.dropLast_sublist l)

/-- With fuel at least length - 7, the pop loop reaches at most 7 entries. -/
theorem popBackWhileOverCap_length (fuel : Nat) (l : List String)
    (h : l.length ≤ fuel + 7) : (popBackWhileOverCap fuel l).length ≤ 7 := by
  induction fuel generalizing l with
  | zero => simpa [popBackWhileOverCap] using h
  | succ fuel ih =>
    simp only [popBackWhileOverCap]
    by_cases hl : l.length ≤ 7
    · simp [hl]
    · simp only [hl, if_false]
      exact ih l.dropLast (by simp [List.length_dropLast]; omega)

/-- Popping from the back never changes the head of a nonempty list. -/
theorem popBackWhileOverCap_head (fuel : Nat) (a : String) (l : List String) :
    (popBackWhileOverCap fuel (a :: l)).head? = some a := by
  induction fuel generalizing l with
  | zero => rfl
  | succ fuel ih =>
    simp only [popBackWhileOverCap]
    by_cases h : (a :: l).length ≤ 7
    · rw [if_pos h]; rfl
    · rw [if_neg h]
      cases l with
      | nil => simp at h
      | cons b t =>
        rw [List.dropLast_cons₂]
        exact ih (b :: t).dropLast

/-- One updateRecentProjects step: starting from a duplicate-free list, the
result is duplicate-free, capped at 7, and headed by the loaded path. -/
theorem updateRecentProjects_step (l : List String) (p : String) (h : l.Nodup) :
    (updateRecentProjects l p).Nodup ∧ (updateRecentProjects l p).length ≤ 7
    ∧ (updateRecentProjects l p).head? = some p := by
  have hnodup : (p :: l.erase p).Nodup := by
    rw [List.nodup_cons]
    refine ⟨fun hmem => ?_, h.erase p⟩
    exact absurd ((h.mem_erase_iff.mp hmem).1) (by simp)
  refine ⟨(popBackWhileOverCap_sublist _ _).nodup hnodup,
    popBackWhileOverCap_length _ _ (Nat.le_add_right _ _),
    popBackWhileOverCap_head _ _ _⟩

/-- C6: after any sequence of project loads starting from a duplicate-free
recent list of at most 7 entries, the list still has at most 7 entries and no
duplicate paths, and the most recently loaded path sits at its head. -/
theorem updateRecentProjects_invariant (initList : List String) (loads : List String)
    (h0 : initList.Nodup) (hlen : initList.length ≤ 7) :
    (loads.foldl updateRecentProjects initList).Nodup
    ∧ (loads.foldl updateRecentProjects initList).length ≤ 7
    ∧ (loads ≠ [] → (loads.foldl updateRecentProjects initList).head? = loads.getLast?) := by
  induction loads generalizing initList with
  | nil => exact ⟨h0, hlen, fun hc => absurd rfl hc⟩
  | cons p ps ih =>
    have step := updateRecentProjects_step initList p h0
    have ih' := ih (updateRecentProjects initList p) step.1 step.2.1
    simp only [List.foldl_cons]
    refine ⟨ih'.1, ih'.2.1, fun _ => ?_⟩
    cases ps with
    | nil => simpa using step.2.2
    | cons q qs =>
      rw [List.getLast?_cons_cons]
      exact ih'.2.2 (by simp)

/-- Witness for C6: two loads starting from the empty recent list. -/
theorem updateRecentProjects_invariant_witness :
    ((["a", "b"] : List String).foldl updateRecentProjects []).Nodup
    ∧ ((["a", "b"] : List String).foldl updateRecentProjects []).length ≤ 7
    ∧ ((["a", "b"] : List String) ≠ [] →
        ((["a", "b"] : List String).foldl updateRecentProjects []).head? =
          (["a", "b"] : List String).getLast?) :=
  updateRecentProjects_invariant [] ["a", "b"] (by simp) (by simp)

end Application
